import Mathlib

/-!
Verification development for the `executor` package of the rcon-cli
repository (`internal/executor/executor.go`): session resolution
(`NewSession`), protocol dispatch (`Execute`, `CheckCredentials`) and the
interactive state machine (`Interactive`).

The three wire-protocol clients (`rcon`, `telnet`, `websocket`), the log
sink (`logger.Write`) and the config loader (`config.NewConfig`) are
external collaborators: they are modelled as an environment of abstract
functions supplied as a parameter, and the embedding records every call
made to them as an observable trace.  Terminal input is modelled as a list
of lines; terminal output as the list of strings written to the writer
(`Fprintln w s` contributes `s ++ "\n"`, `Fprint`/`Fprintf` contribute the
formatted string).
-/

namespace RconCli

/-- Errors.  The named constructors are the sentinel errors declared in
`executor.go` (`ErrEmptyAddress`, `ErrEmptyPassword`, `ErrCommandEmpty`,
`ErrToManyFails`); `wrapLog e` is the `fmt.Errorf("write log error: %w", err)`
wrapping; `external s` stands for an arbitrary error produced by an external
collaborator (protocol client, log sink or config loader). -/
inductive Err where
  | ErrEmptyAddress
  | ErrEmptyPassword
  | ErrCommandEmpty
  | ErrToManyFails
  | wrapLog (e : Err)
  | external (s : String)
deriving DecidableEq, Repr

/-- `config.Session` (the struct from the `internal/config` package, as used
field-by-field in `executor.go`).  The Go field `Type` is rendered `Typ`
because `Type` is reserved in Lean. -/
structure Session where
  Address : String
  Password : String
  Typ : String
  Log : String
deriving DecidableEq, Repr

/-- Modelled from the spec: `config.ProtocolRCON`, the binary-protocol name
(the `internal/config` package is not among the sources; the spec's prompt
text "empty for rcon" and the allowed-protocol list fix the name). -/
def ProtocolRCON : String := "rcon"

/-- Modelled from the spec: `config.ProtocolTELNET`, the text-line protocol
name. -/
def ProtocolTELNET : String := "telnet"

/-- Modelled from the spec: `config.ProtocolWebRCON`, the socket-framed
protocol name. -/
def ProtocolWebRCON : String := "webrcon"

/-- Modelled from the spec: `config.DefaultConfigEnv`, the fixed default
environment name used when the `-e` flag is empty. -/
def DefaultConfigEnv : String := "default"

/-- `CommandQuit` from `executor.go`: the command for exit from Interactive
mode. -/
def CommandQuit : String := ":q"

/-- `AttemptsLimit` from `executor.go`: the limit value for the number of
attempts to obtain user data in terminal mode. -/
def AttemptsLimit : Nat := 3

/-- Go's `unicode.IsSpace`, as used by `strings.TrimSpace`: ASCII
whitespace, NEL, NBSP, and the code points with the Unicode `White_Space`
property. -/
def goIsSpace (ch : Char) : Bool :=
  ch = ' ' || ch = '\t' || ch = '\n' || ch = '\x0B' || ch = '\x0C' ||
  ch = '\r' || ch = '\u0085' || ch = '\u00A0' ||
  ch = '\u1680' || (0x2000 ≤ ch.toNat && ch.toNat ≤ 0x200A) ||
  ch = '\u2028' || ch = '\u2029' || ch = '\u202F' || ch = '\u205F' ||
  ch = '\u3000'

/-- Go's `strings.TrimSpace`: drop leading and trailing whitespace. -/
def trimSpace (s : String) : String :=
  ⟨((s.data.dropWhile goIsSpace).reverse.dropWhile goIsSpace).reverse⟩

/-- The environment of external collaborators: the three protocol clients'
`Execute`, `Interactive` and `CheckCredentials` operations and the log
sink `logger.Write`.  Each `Execute` takes `(address, password, command)`
and returns `(result, error)`; `logWrite` takes
`(path, address, command, result)`. -/
structure ClientEnv where
  rconExecute : String → String → String → String × Option Err
  telnetExecute : String → String → String → String × Option Err
  websocketExecute : String → String → String → String × Option Err
  telnetInteractive : String → String → Option Err
  rconCheck : String → String → Option Err
  websocketCheck : String → String → Option Err
  logWrite : String → String → String → String → Option Err

/-- One call made to a protocol client's `Execute`, with its arguments. -/
inductive ClientCall where
  | rcon (addr pwd cmd : String)
  | telnet (addr pwd cmd : String)
  | websocket (addr pwd cmd : String)
deriving DecidableEq, Repr

/-- The protocol-client dispatch of `Execute`'s `switch ses.Type`:
`case config.ProtocolTELNET`, `case config.ProtocolWebRCON`, `default`.
Returns the `(result, err)` pair of the selected client together with the
record of the call. -/
def dispatch (env : ClientEnv) (ses : Session) (command : String) :
    (String × Option Err) × ClientCall :=
  if ses.Typ = ProtocolTELNET then
    (env.telnetExecute ses.Address ses.Password command,
     .telnet ses.Address ses.Password command)
  else if ses.Typ = ProtocolWebRCON then
    (env.websocketExecute ses.Address ses.Password command,
     .websocket ses.Address ses.Password command)
  else
    (env.rconExecute ses.Address ses.Password command,
     .rcon ses.Address ses.Password command)

/-- Observable behaviour of one `Execute` call: the strings written to the
output writer, the calls to the log sink (`(path, address, command,
result)` argument tuples), the calls to protocol clients, and the returned
error (`none` = `nil`). -/
structure ExecTrace where
  output : List String
  logCalls : List (String × String × String × String)
  clientCalls : List ClientCall
  result : Option Err
deriving DecidableEq, Repr

/-- `Execute` from `executor.go`: sends a command to the remote server and
prints the response.  Empty command is rejected with `ErrCommandEmpty`
before any client call; the result, when non-empty, is trimmed and printed;
a client error is returned before the log sink is reached; on success the
log sink is called and its failure is returned wrapped. -/
def Execute (env : ClientEnv) (ses : Session) (command : String) : ExecTrace :=
  if command = "" then
    { output := [], logCalls := [], clientCalls := [], result := some .ErrCommandEmpty }
  else
    let d := dispatch env ses command
    let result := d.1.1
    let err := d.1.2
    let result := if result ≠ "" then trimSpace result else result
    let output := if d.1.1 ≠ "" then [result ++ "\n"] else []
    match err with
    | some e => { output := output, logCalls := [], clientCalls := [d.2], result := some e }
    | none =>
      match env.logWrite ses.Log ses.Address command result with
      | some e =>
        { output := output, logCalls := [(ses.Log, ses.Address, command, result)],
          clientCalls := [d.2], result := some (.wrapLog e) }
      | none =>
        { output := output, logCalls := [(ses.Log, ses.Address, command, result)],
          clientCalls := [d.2], result := none }

/-- `CheckCredentials` from `executor.go`: websocket credential check for
the WebRCON protocol type, the binary rcon client's check otherwise. -/
def CheckCredentials (env : ClientEnv) (ses : Session) : Option Err :=
  if ses.Typ = ProtocolWebRCON then
    env.websocketCheck ses.Address ses.Password
  else
    env.rconCheck ses.Address ses.Password

/-- The string flag values read from the cli context in `NewSession` and
`init` (`c.String("a")`, `"p"`, `"t"`, `"l"`, `"e"`, `"cfg"`). -/
structure FlagValues where
  a : String
  p : String
  t : String
  l : String
  e : String
  cfg : String
deriving DecidableEq, Repr

/-- Modelled from the spec: the loaded configuration, a mapping from
environment name to a Session-shaped record; a missing environment yields
the zero value (all fields empty), as Go map indexing does, so the mapping
is total. -/
def Config : Type := String → Session

/-- Modelled from the spec: the config collaborator `config.NewConfig`,
which loads the file at the given path and either fails or yields the
environment mapping.  It is external to the sources, so it is passed to
`NewSession` as a parameter. -/
def ConfigLoader : Type := String → Except Err Config

/-- `NewSession` from `executor.go`: builds the session from the flag
values; if both address and password flags were received the configuration
file is ignored; otherwise the config is loaded (a load failure is returned
together with the partially-built session) and each still-empty field is
filled from the selected environment. -/
def NewSession (newConfig : ConfigLoader) (c : FlagValues) :
    Session × Option Err :=
  let ses : Session :=
    { Address := c.a, Password := c.p, Typ := c.t, Log := c.l }
  if ses.Address ≠ "" ∧ ses.Password ≠ "" then
    (ses, none)
  else
    match newConfig c.cfg with
    | .error err => (ses, some err)
    | .ok cfg =>
      let e := if c.e = "" then DefaultConfigEnv else c.e
      let ses := if ses.Address = "" then { ses with Address := (cfg e).Address } else ses
      let ses := if ses.Password = "" then { ses with Password := (cfg e).Password } else ses
      let ses := if ses.Log = "" then { ses with Log := (cfg e).Log } else ses
      let ses := if ses.Typ = "" then { ses with Typ := (cfg e).Typ } else ses
      (ses, none)

/-- `fmt.Fscanln(r, &v)` on a line-oriented input: an empty line (or
exhausted input) leaves the variable unchanged, a non-empty line stores its
token into the variable; one line is consumed when available. -/
def readLine (v : String) (input : List String) : String × List String :=
  match input with
  | [] => (v, [])
  | line :: rest => (if line = "" then v else line, rest)

/-- How the inner `for scanner.Scan()` loop of `Interactive` ended:
`quit` by `break Loop` on the quit sentinel, `eofEnd` by the scanner
exhausting the input, `errRes e` by `return err` from a failed `Execute`. -/
inductive CmdLoopRes where
  | quit
  | eofEnd
  | errRes (e : Err)
deriving DecidableEq, Repr

/-- Observable behaviour of the inner command loop: output writes, the
commands passed to `Execute`, and how the loop ended. -/
structure CmdOut where
  output : List String
  execCmds : List String
  res : CmdLoopRes
deriving DecidableEq, Repr

/-- The inner `for scanner.Scan()` loop of `Interactive`: each line that is
non-empty and not the quit sentinel is dispatched through `Execute`; an
`Execute` error returns immediately; otherwise a `"> "` prompt is printed
and the loop continues; the quit sentinel breaks out; exhausted input ends
the loop. -/
def cmdLoop (env : ClientEnv) (ses : Session) : List String → CmdOut
  | [] => { output := [], execCmds := [], res := .eofEnd }
  | line :: rest =>
    if line ≠ "" then
      if line = CommandQuit then
        { output := [], execCmds := [], res := .quit }
      else
        let t := Execute env ses line
        match t.result with
        | some e => { output := t.output, execCmds := [line], res := .errRes e }
        | none =>
          let k := cmdLoop env ses rest
          { output := t.output ++ ["> "] ++ k.output,
            execCmds := line :: k.execCmds, res := k.res }
    else
      let k := cmdLoop env ses rest
      { output := ["> "] ++ k.output, execCmds := k.execCmds, res := k.res }

/-- Observable behaviour of `Interactive`: output writes, commands passed
to `Execute`, `CheckCredentials` calls (address, password), delegations to
`telnet.Interactive` (address, password), and the overall outcome —
`none` means the outer `Loop` ran for the whole fuel budget without
returning (non-termination within the budget); `some none` is a `nil`
return; `some (some e)` is an error return. -/
structure IOut where
  output : List String
  execCmds : List String
  checkCalls : List (String × String)
  telnetCalls : List (String × String)
  result : Option (Option Err)
deriving DecidableEq, Repr

/-- Prepend output written before a loop iteration to its outcome. -/
def IOut.withOutput (o : List String) (k : IOut) : IOut :=
  { k with output := o ++ k.output }

/-- The unsupported-protocol diagnostic printed by `Interactive`
(`fmt.Fprintf` with `%q` verbs applied to the three protocol names). -/
def unsupportedMsg : String :=
  "Unsupported protocol type. Allowed \"" ++ ProtocolRCON ++ "\", \"" ++
  ProtocolWebRCON ++ "\" and \"" ++ ProtocolTELNET ++ "\" protocols\n"

/-- The banner printed before the command loop. -/
def banner (ses : Session) : String :=
  "Waiting commands for " ++ ses.Address ++ " (or type " ++ CommandQuit ++
  " to exit)\n> "

/-- The labelled outer `Loop` of `Interactive`, with `attempt` the retry
counter declared before it.  Each iteration: prompt for and read the
protocol type if it is empty; TELNET delegates the whole session to
`telnet.Interactive`; empty, RCON or WebRCON check credentials (a failure
is returned), print the banner and run the command loop — `break Loop`
returns `nil`, an `Execute` error is returned, and on exhausted input the
outer loop runs again; any other type increments `attempt`, resets the
type, prints a diagnostic, and returns `ErrToManyFails` once `attempt`
reaches `AttemptsLimit`.  The Go loop has no bound, so the embedding takes
fuel: `result = none` means the budget was exhausted before a `return`. -/
def interactiveLoop (env : ClientEnv) :
    Nat → Nat → Session → List String → IOut
  | 0, _, _, _ =>
    { output := [], execCmds := [], checkCalls := [], telnetCalls := [],
      result := none }
  | fuel + 1, attempt, ses, input =>
    let prompt := if ses.Typ = "" then ["Enter protocol type (empty for rcon): "] else []
    let r := if ses.Typ = "" then readLine ses.Typ input else (ses.Typ, input)
    let ses := { ses with Typ := r.1 }
    let input := r.2
    if ses.Typ = ProtocolTELNET then
      { output := prompt, execCmds := [], checkCalls := [],
        telnetCalls := [(ses.Address, ses.Password)],
        result := some (env.telnetInteractive ses.Address ses.Password) }
    else if ses.Typ = "" ∨ ses.Typ = ProtocolRCON ∨ ses.Typ = ProtocolWebRCON then
      match CheckCredentials env ses with
      | some e =>
        { output := prompt, execCmds := [],
          checkCalls := [(ses.Address, ses.Password)], telnetCalls := [],
          result := some (some e) }
      | none =>
        let c := cmdLoop env ses input
        match c.res with
        | .quit =>
          { output := prompt ++ [banner ses] ++ c.output,
            execCmds := c.execCmds,
            checkCalls := [(ses.Address, ses.Password)], telnetCalls := [],
            result := some none }
        | .errRes e =>
          { output := prompt ++ [banner ses] ++ c.output,
            execCmds := c.execCmds,
            checkCalls := [(ses.Address, ses.Password)], telnetCalls := [],
            result := some (some e) }
        | .eofEnd =>
          let k := interactiveLoop env fuel attempt ses []
          { output := prompt ++ [banner ses] ++ c.output ++ k.output,
            execCmds := c.execCmds ++ k.execCmds,
            checkCalls := (ses.Address, ses.Password) :: k.checkCalls,
            telnetCalls := k.telnetCalls, result := k.result }
    else
      let attempt := attempt + 1
      let ses := { ses with Typ := "" }
      if attempt ≥ AttemptsLimit then
        { output := prompt ++ [unsupportedMsg], execCmds := [],
          checkCalls := [], telnetCalls := [],
          result := some (some .ErrToManyFails) }
      else
        IOut.withOutput (prompt ++ [unsupportedMsg])
          (interactiveLoop env fuel attempt ses input)

/-- `Interactive` from `executor.go`: prompts for a missing address and a
missing password (one `Fscanln` each, an empty read is not retried), then
enters the outer negotiation/command `Loop` with `attempt = 0`. -/
def Interactive (env : ClientEnv) (fuel : Nat) (ses : Session)
    (input : List String) : IOut :=
  let oA := if ses.Address = "" then ["Enter remote host and port [ip:port]: "] else []
  let rA := if ses.Address = "" then readLine ses.Address input else (ses.Address, input)
  let ses := { ses with Address := rA.1 }
  let input := rA.2
  let oP := if ses.Password = "" then ["Enter password: "] else []
  let rP := if ses.Password = "" then readLine ses.Password input else (ses.Password, input)
  let ses := { ses with Password := rP.1 }
  let input := rP.2
  IOut.withOutput (oA ++ oP) (interactiveLoop env fuel 0 ses input)

/-- A test environment in which every collaborator succeeds; the protocol
clients answer `"ok"`. -/
def envAllOk : ClientEnv where
  rconExecute := fun _ _ _ => ("ok", none)
  telnetExecute := fun _ _ _ => ("ok", none)
  websocketExecute := fun _ _ _ => ("ok", none)
  telnetInteractive := fun _ _ => none
  rconCheck := fun _ _ => none
  websocketCheck := fun _ _ => none
  logWrite := fun _ _ _ _ => none

/-- A test environment whose protocol clients return a partial result
`"partial"` together with an execution error. -/
def envExecFails : ClientEnv where
  rconExecute := fun _ _ _ => ("partial", some (.external "boom"))
  telnetExecute := fun _ _ _ => ("partial", some (.external "boom"))
  websocketExecute := fun _ _ _ => ("partial", some (.external "boom"))
  telnetInteractive := fun _ _ => none
  rconCheck := fun _ _ => none
  websocketCheck := fun _ _ => none
  logWrite := fun _ _ _ _ => none

/-- A test environment whose protocol clients succeed with the
whitespace-padded result `"  OK\n"`. -/
def envSpacedOk : ClientEnv where
  rconExecute := fun _ _ _ => ("  OK\n", none)
  telnetExecute := fun _ _ _ => ("  OK\n", none)
  websocketExecute := fun _ _ _ => ("  OK\n", none)
  telnetInteractive := fun _ _ => none
  rconCheck := fun _ _ => none
  websocketCheck := fun _ _ => none
  logWrite := fun _ _ _ _ => none

/-- A fully-resolved test session using the default binary protocol and a
log file. -/
def sesR : Session where
  Address := "a:1"
  Password := "p"
  Typ := "rcon"
  Log := "x.log"

/-- `Execute` on a non-empty command records exactly the one dispatched
client call. -/
lemma Execute_clientCalls (env : ClientEnv) (ses : Session) (cmd : String)
    (h : cmd ≠ "") :
    (Execute env ses cmd).clientCalls = [(dispatch env ses cmd).2] := by
  simp only [Execute, if_neg h]
  split <;> (try split) <;> rfl

/-- `Execute` on a non-empty command writes the trimmed result, as one
line, exactly when the raw client result is non-empty. -/
lemma Execute_output (env : ClientEnv) (ses : Session) (cmd : String)
    (h : cmd ≠ "") :
    (Execute env ses cmd).output =
      (if (dispatch env ses cmd).1.1 = "" then []
       else [trimSpace (dispatch env ses cmd).1.1 ++ "\n"]) := by
  simp only [Execute, if_neg h, ne_eq, ite_not]
  split <;> (try split) <;> (try split_ifs) <;> simp_all

/-- `Execute` on a non-empty command calls the log sink exactly when the
dispatched client returned no error, and then with
`(path, address, command, possibly-trimmed result)`. -/
lemma Execute_logCalls (env : ClientEnv) (ses : Session) (cmd : String)
    (h : cmd ≠ "") :
    (Execute env ses cmd).logCalls =
      (match (dispatch env ses cmd).1.2 with
       | some _ => []
       | none => [(ses.Log, ses.Address, cmd,
           if (dispatch env ses cmd).1.1 = "" then (dispatch env ses cmd).1.1
           else trimSpace (dispatch env ses cmd).1.1)]) := by
  simp only [Execute, if_neg h, ne_eq, ite_not]
  split <;> (try split) <;> simp_all

lemma IOut.withOutput_execCmds (o : List String) (k : IOut) :
    (IOut.withOutput o k).execCmds = k.execCmds := rfl

lemma IOut.withOutput_result (o : List String) (k : IOut) :
    (IOut.withOutput o k).result = k.result := rfl

lemma IOut.withOutput_checkCalls (o : List String) (k : IOut) :
    (IOut.withOutput o k).checkCalls = k.checkCalls := rfl

lemma IOut.withOutput_telnetCalls (o : List String) (k : IOut) :
    (IOut.withOutput o k).telnetCalls = k.telnetCalls := rfl

/-- When address and password are already resolved, `Interactive` is the
outer loop itself: no prompts, no input consumed. -/
lemma Interactive_resolved (env : ClientEnv) (fuel : Nat) (ses : Session)
    (input : List String) (hA : ses.Address ≠ "") (hP : ses.Password ≠ "") :
    Interactive env fuel ses input = interactiveLoop env fuel 0 ses input := by
  simp [Interactive, hA, hP, IOut.withOutput]

/-- The quit sentinel at the head of the input ends the command loop at
once: nothing dispatched, nothing printed, outcome `quit`. -/
lemma cmdLoop_quit (env : ClientEnv) (ses : Session) (rest : List String) :
    cmdLoop env ses (CommandQuit :: rest) =
      { output := [], execCmds := [], res := .quit } := rfl

/-- The command loop never passes the quit sentinel to `Execute`. -/
lemma cmdLoop_quit_not_dispatched (env : ClientEnv) (ses : Session) :
    ∀ input : List String, CommandQuit ∉ (cmdLoop env ses input).execCmds := by
  intro input
  induction input with
  | nil => simp [cmdLoop]
  | cons line rest ih =>
    by_cases h1 : line = ""
    · simpa [cmdLoop, h1] using ih
    · by_cases h2 : line = CommandQuit
      · simp [cmdLoop, h1, h2, CommandQuit]
      · simp only [cmdLoop, if_pos (show line ≠ "" from h1), if_neg h2]
        split <;> simp_all [eq_comm]

/-- The outer loop never passes the quit sentinel to `Execute`. -/
lemma interactiveLoop_quit_not_dispatched (env : ClientEnv) :
    ∀ (fuel attempt : Nat) (ses : Session) (input : List String),
      CommandQuit ∉ (interactiveLoop env fuel attempt ses input).execCmds := by
  intro fuel
  induction fuel with
  | zero => intro attempt ses input; simp [interactiveLoop]
  | succ n ih =>
    intro attempt ses input
    simp only [interactiveLoop]
    split <;> (try split) <;> (try split) <;> (try split) <;> (try split) <;>
      simp_all [cmdLoop_quit_not_dispatched, IOut.withOutput_execCmds]

/-- A protocol-type line outside the allowed list.  An empty line is not
invalid: `Fscanln` then leaves the type empty, which negotiation
accepts. -/
def invalidProtoLine (s : String) : Prop :=
  s ≠ "" ∧ s ≠ ProtocolRCON ∧ s ≠ ProtocolWebRCON ∧ s ≠ ProtocolTELNET

instance (s : String) : Decidable (invalidProtoLine s) := by
  unfold invalidProtoLine; infer_instance

/-- One negotiation iteration on an invalid protocol-type line below the
attempts limit: diagnostic printed, type reset, retry counter bumped, loop
repeated on the remaining input. -/
lemma interactiveLoop_invalid_step (env : ClientEnv) (fuel attempt : Nat)
    (ses : Session) (line : String) (input : List String)
    (hT : ses.Typ = "") (hinv : invalidProtoLine line)
    (hlt : attempt + 1 < AttemptsLimit) :
    interactiveLoop env (fuel + 1) attempt ses (line :: input) =
      IOut.withOutput ["Enter protocol type (empty for rcon): ", unsupportedMsg]
        (interactiveLoop env fuel (attempt + 1) ses input) := by
  obtain ⟨a, p, t, l⟩ := ses
  simp only at hT
  subst hT
  obtain ⟨h0, h1, h2, h3⟩ := hinv
  simp [interactiveLoop, readLine, h0, h1, h2, h3, Nat.not_le.mpr hlt,
    IOut.withOutput]

/-- One negotiation iteration on an invalid protocol-type line that makes
the retry counter reach the limit: the loop returns `ErrToManyFails`. -/
lemma interactiveLoop_invalid_fail (env : ClientEnv) (fuel attempt : Nat)
    (ses : Session) (line : String) (input : List String)
    (hT : ses.Typ = "") (hinv : invalidProtoLine line)
    (hge : AttemptsLimit ≤ attempt + 1) :
    interactiveLoop env (fuel + 1) attempt ses (line :: input) =
      { output := ["Enter protocol type (empty for rcon): ", unsupportedMsg],
        execCmds := [], checkCalls := [], telnetCalls := [],
        result := some (some .ErrToManyFails) } := by
  obtain ⟨a, p, t, l⟩ := ses
  simp only at hT
  subst hT
  obtain ⟨h0, h1, h2, h3⟩ := hinv
  simp [interactiveLoop, readLine, h0, h1, h2, h3, hge]

/-- A negotiation iteration reading the TELNET protocol type delegates the
whole remaining session to the telnet client's interactive routine. -/
lemma interactiveLoop_telnet_step (env : ClientEnv) (fuel attempt : Nat)
    (ses : Session) (input : List String) (hT : ses.Typ = "") :
    interactiveLoop env (fuel + 1) attempt ses (ProtocolTELNET :: input) =
      { output := ["Enter protocol type (empty for rcon): "], execCmds := [],
        checkCalls := [], telnetCalls := [(ses.Address, ses.Password)],
        result := some (env.telnetInteractive ses.Address ses.Password) } := by
  obtain ⟨a, p, t, l⟩ := ses
  simp only at hT
  subst hT
  simp [interactiveLoop, readLine, ProtocolTELNET]

/-- A negotiation iteration reading an empty, `rcon` or `webrcon` line
proceeds past negotiation: the credentials check is invoked. -/
lemma interactiveLoop_valid_checks (env : ClientEnv) (fuel attempt : Nat)
    (ses : Session) (line : String) (input : List String)
    (hT : ses.Typ = "")
    (hv : line = "" ∨ line = ProtocolRCON ∨ line = ProtocolWebRCON) :
    (interactiveLoop env (fuel + 1) attempt ses (line :: input)).checkCalls ≠ [] := by
  obtain ⟨a, p, t, l⟩ := ses
  simp only at hT
  subst hT
  rcases hv with hv | hv | hv <;> subst hv <;>
    · simp only [interactiveLoop, readLine]
      split <;> (try split) <;> (try split) <;> (try split) <;> (try split) <;>
        (try split) <;>
        simp_all [ProtocolRCON, ProtocolWebRCON, ProtocolTELNET]

lemma IOut.withOutput_withOutput (o o' : List String) (k : IOut) :
    IOut.withOutput o (IOut.withOutput o' k) = IOut.withOutput (o ++ o') k := by
  simp [IOut.withOutput]

/-- With the fully-resolved rcon session and exhausted input, every outer
iteration re-checks credentials and re-runs the (immediately ending)
scanner loop, so no fuel budget suffices for the loop to return. -/
lemma interactiveLoop_eof_spins (fuel attempt : Nat) :
    (interactiveLoop envAllOk fuel attempt sesR []).result = none := by
  induction fuel generalizing attempt with
  | zero => rfl
  | succ n ih =>
    simpa [interactiveLoop, sesR, envAllOk, CheckCredentials, cmdLoop,
      ProtocolTELNET, ProtocolRCON, ProtocolWebRCON] using ih attempt

/-- A test environment whose protocol clients succeed with the empty-string
result. -/
def envEmptyOk : ClientEnv where
  rconExecute := fun _ _ _ => ("", none)
  telnetExecute := fun _ _ _ => ("", none)
  websocketExecute := fun _ _ _ => ("", none)
  telnetInteractive := fun _ _ => none
  rconCheck := fun _ _ => none
  websocketCheck := fun _ _ => none
  logWrite := fun _ _ _ _ => none

/-- A test environment whose protocol clients succeed with a
whitespace-only non-empty result. -/
def envBlankOk : ClientEnv where
  rconExecute := fun _ _ _ => ("   ", none)
  telnetExecute := fun _ _ _ => ("   ", none)
  websocketExecute := fun _ _ _ => ("   ", none)
  telnetInteractive := fun _ _ => none
  rconCheck := fun _ _ => none
  websocketCheck := fun _ _ => none
  logWrite := fun _ _ _ _ => none

/-- C1 counterexample: a session with a non-empty `Log` path and a protocol
client that fails.  `Execute` returns the client's error and the log sink
is never invoked, contrary to the claim that the log-sink call is not
skipped on a failed execution. -/
theorem Execute_failed_skips_log_cex :
    sesR.Log ≠ "" ∧
    (Execute envExecFails sesR "status").result = some (.external "boom") ∧
    (Execute envExecFails sesR "status").logCalls = [] := by
  decide

/-- C1 (amended): after a successful execution, if `LogPath` is non-empty
the log sink is invoked with `(path, address, command, result)`; after a
failed execution the log-sink call is skipped. -/
theorem Execute_logs_only_on_success (env : ClientEnv) (ses : Session)
    (cmd : String) (hc : cmd ≠ "") (_hl : ses.Log ≠ "") :
    ((dispatch env ses cmd).1.2 = none →
      (Execute env ses cmd).logCalls =
        [(ses.Log, ses.Address, cmd,
          if (dispatch env ses cmd).1.1 = "" then (dispatch env ses cmd).1.1
          else trimSpace (dispatch env ses cmd).1.1)]) ∧
    ((dispatch env ses cmd).1.2 ≠ none →
      (Execute env ses cmd).logCalls = []) := by
  rw [Execute_logCalls env ses cmd hc]
  constructor <;> intro h
  · simp only [h]
  · cases he : (dispatch env ses cmd).1.2 with
    | none => exact absurd he h
    | some e => simp only [he]

/-- C1 witness: the amended theorem applied to the all-succeeding
environment and the resolved logging session. -/
theorem Execute_logs_only_on_success_witness :
    (dispatch envAllOk sesR "status").1.2 = none ∧
    (Execute envAllOk sesR "status").logCalls =
      [(sesR.Log, sesR.Address, "status",
        if (dispatch envAllOk sesR "status").1.1 = "" then
          (dispatch envAllOk sesR "status").1.1
        else trimSpace (dispatch envAllOk sesR "status").1.1)] :=
  ⟨rfl,
   (Execute_logs_only_on_success envAllOk sesR "status" (by decide) (by decide)).1 rfl⟩

/-- C2: the claim says a finite input stream exhausted without the quit
sentinel makes `Interactive` return without error.  The code instead falls
from the ended scanner loop back to the top of the outer `Loop`, re-checks
credentials, re-prints the banner and spins: with all collaborators
succeeding and input `[]` or `["status"]` (no quit sentinel), no fuel
budget ever produces a return (`result = none` for every fuel). -/
theorem Interactive_eof_never_returns (fuel : Nat) :
    (Interactive envAllOk fuel sesR []).result = none ∧
    (Interactive envAllOk fuel sesR ["status"]).result = none := by
  have hA : sesR.Address ≠ "" := by decide
  have hP : sesR.Password ≠ "" := by decide
  rw [Interactive_resolved envAllOk fuel sesR [] hA hP,
    Interactive_resolved envAllOk fuel sesR ["status"] hA hP]
  refine ⟨interactiveLoop_eof_spins fuel 0, ?_⟩
  cases fuel with
  | zero => rfl
  | succ n =>
    simpa [interactiveLoop, sesR, envAllOk, CheckCredentials, cmdLoop, Execute,
      dispatch, trimSpace, ProtocolTELNET, ProtocolRCON, ProtocolWebRCON,
      CommandQuit] using interactiveLoop_eof_spins n 0

/-- C4: when both the address and password flags are non-empty,
`NewSession` returns the flag-built session with no error, identically for
every config loader (the config source is never consulted, and no load
error surfaces). -/
theorem NewSession_flags_skip_config (nc nc2 : ConfigLoader) (c : FlagValues)
    (hA : c.a ≠ "") (hP : c.p ≠ "") :
    NewSession nc c =
      ({ Address := c.a, Password := c.p, Typ := c.t, Log := c.l }, none) ∧
    NewSession nc c = NewSession nc2 c := by
  constructor <;> simp [NewSession, hA, hP]

/-- A config loader that always fails, standing in for a poisoned config
path. -/
def poisonedLoader : ConfigLoader := fun _ => .error (.external "config load failed")

/-- A config loader that always succeeds with an empty environment map. -/
def okLoader : ConfigLoader := fun _ => .ok fun _ =>
  { Address := "", Password := "", Typ := "", Log := "" }

/-- Flag values supplying both address and password. -/
def flagsAP : FlagValues where
  a := "a:1"
  p := "p"
  t := ""
  l := ""
  e := ""
  cfg := "poisoned.yaml"

/-- C4 witness: with address and password flags set, the unloadable config
and the loadable config give the same flag-built session. -/
theorem NewSession_flags_skip_config_witness :
    NewSession poisonedLoader flagsAP =
      ({ Address := flagsAP.a, Password := flagsAP.p, Typ := flagsAP.t,
         Log := flagsAP.l }, none) ∧
    NewSession poisonedLoader flagsAP = NewSession okLoader flagsAP :=
  NewSession_flags_skip_config poisonedLoader okLoader flagsAP
    (by decide) (by decide)

/-- C5: `Execute` dispatch is keyed on the session's protocol type: telnet
routes to the telnet client, webrcon to the websocket client, and every
other value (empty or unrecognized) to the binary rcon client. -/
theorem Execute_dispatch_routing (env : ClientEnv) (ses : Session)
    (cmd : String) (hc : cmd ≠ "") :
    (ses.Typ = ProtocolTELNET →
      (Execute env ses cmd).clientCalls =
        [.telnet ses.Address ses.Password cmd]) ∧
    (ses.Typ = ProtocolWebRCON →
      (Execute env ses cmd).clientCalls =
        [.websocket ses.Address ses.Password cmd]) ∧
    (ses.Typ ≠ ProtocolTELNET → ses.Typ ≠ ProtocolWebRCON →
      (Execute env ses cmd).clientCalls =
        [.rcon ses.Address ses.Password cmd]) := by
  refine ⟨?_, ?_, ?_⟩ <;> intros <;>
    rw [Execute_clientCalls env ses cmd hc] <;>
    simp_all [dispatch, ProtocolTELNET, ProtocolWebRCON]

/-- C5 witness: routing evaluated on telnet, webrcon, empty and
unrecognized protocol types. -/
theorem Execute_dispatch_routing_witness :
    (Execute envAllOk { sesR with Typ := "telnet" } "status").clientCalls =
      [.telnet sesR.Address sesR.Password "status"] ∧
    (Execute envAllOk { sesR with Typ := "webrcon" } "status").clientCalls =
      [.websocket sesR.Address sesR.Password "status"] ∧
    (Execute envAllOk { sesR with Typ := "" } "status").clientCalls =
      [.rcon sesR.Address sesR.Password "status"] ∧
    (Execute envAllOk { sesR with Typ := "bogus" } "status").clientCalls =
      [.rcon sesR.Address sesR.Password "status"] :=
  ⟨(Execute_dispatch_routing envAllOk { sesR with Typ := "telnet" } "status"
      (by decide)).1 rfl,
   (Execute_dispatch_routing envAllOk { sesR with Typ := "webrcon" } "status"
      (by decide)).2.1 rfl,
   (Execute_dispatch_routing envAllOk { sesR with Typ := "" } "status"
      (by decide)).2.2 (by decide) (by decide),
   (Execute_dispatch_routing envAllOk { sesR with Typ := "bogus" } "status"
      (by decide)).2.2 (by decide) (by decide)⟩

/-- C7: with a protocol result of `"  OK\n"`, the value written to the
output stream is the line `"OK"` and the value handed to the log sink is
exactly `"OK"`. -/
theorem Execute_trims_result (ses : Session) (cmd : String) (hc : cmd ≠ "") :
    (Execute envSpacedOk ses cmd).output = ["OK" ++ "\n"] ∧
    (Execute envSpacedOk ses cmd).logCalls =
      [(ses.Log, ses.Address, cmd, "OK")] := by
  have hd : (dispatch envSpacedOk ses cmd).1 = ("  OK\n", none) := by
    simp only [dispatch]; split_ifs <;> rfl
  have hd1 : (dispatch envSpacedOk ses cmd).1.1 = "  OK\n" := by rw [hd]
  have hd2 : (dispatch envSpacedOk ses cmd).1.2 = none := by rw [hd]
  have ht : trimSpace "  OK\n" = "OK" := by decide
  rw [Execute_output envSpacedOk ses cmd hc, Execute_logCalls envSpacedOk ses cmd hc]
  simp [hd1, hd2, ht]

/-- C7 witness: the trimming theorem evaluated at a concrete session and
command. -/
theorem Execute_trims_result_witness :
    (Execute envSpacedOk sesR "status").output = ["OK" ++ "\n"] ∧
    (Execute envSpacedOk sesR "status").logCalls =
      [(sesR.Log, sesR.Address, "status", "OK")] :=
  Execute_trims_result sesR "status" (by decide)

/-- C8: `Execute` with an empty command returns the distinct
command-not-set error and invokes no protocol client (and nothing else:
no output, no log call). -/
theorem Execute_empty_command (env : ClientEnv) (ses : Session) :
    Execute env ses "" =
      { output := [], logCalls := [], clientCalls := [],
        result := some .ErrCommandEmpty } := rfl

/-- C10: `Execute` writes to the output stream iff the raw client result
is non-empty; what it writes is the trimmed result as one line. -/
theorem Execute_output_iff_nonempty (env : ClientEnv) (ses : Session)
    (cmd : String) (hc : cmd ≠ "") :
    (Execute env ses cmd).output =
      (if (dispatch env ses cmd).1.1 = "" then []
       else [trimSpace (dispatch env ses cmd).1.1 ++ "\n"]) ∧
    ((Execute env ses cmd).output ≠ [] ↔ (dispatch env ses cmd).1.1 ≠ "") := by
  have h := Execute_output env ses cmd hc
  refine ⟨h, ?_⟩
  rw [h]
  split_ifs with hr <;> simp [hr]

/-- C10 witness: an empty-string result produces no output at all even on
success, while a whitespace-only result is written as an empty line. -/
theorem Execute_output_iff_nonempty_witness :
    (Execute envEmptyOk sesR "status").output = [] ∧
    (Execute envBlankOk sesR "status").output = ["\n"] := by
  constructor
  · rw [(Execute_output_iff_nonempty envEmptyOk sesR "status" (by decide)).1]
    decide
  · rw [(Execute_output_iff_nonempty envBlankOk sesR "status" (by decide)).1]
    decide

/-- C3: with address and password resolved and the protocol type still
unspecified, three invalid protocol-type entries terminate `Interactive`
with `ErrToManyFails`; two invalid entries followed by a valid one (empty,
rcon or webrcon — or telnet) proceed past negotiation (the credential
check, resp. the telnet interactive routine, is reached). -/
theorem Interactive_three_invalid_protocols (env : ClientEnv) (ses : Session)
    (i1 i2 : String) (rest : List String) (k : Nat)
    (hA : ses.Address ≠ "") (hP : ses.Password ≠ "") (hT : ses.Typ = "")
    (h1 : invalidProtoLine i1) (h2 : invalidProtoLine i2) :
    (∀ i3, invalidProtoLine i3 →
      (Interactive env (k + 3) ses (i1 :: i2 :: i3 :: rest)).result =
        some (some .ErrToManyFails)) ∧
    (∀ v, v = "" ∨ v = ProtocolRCON ∨ v = ProtocolWebRCON →
      (Interactive env (k + 3) ses (i1 :: i2 :: v :: rest)).checkCalls ≠ []) ∧
    (Interactive env (k + 3) ses (i1 :: i2 :: ProtocolTELNET :: rest)).telnetCalls ≠ [] := by
  have e3 : k + 3 = (k + 2) + 1 := rfl
  have two (tail : List String) :
      interactiveLoop env (k + 3) 0 ses (i1 :: i2 :: tail) =
        IOut.withOutput
          ["Enter protocol type (empty for rcon): ", unsupportedMsg,
           "Enter protocol type (empty for rcon): ", unsupportedMsg]
          (interactiveLoop env (k + 1) 2 ses tail) := by
    rw [e3, interactiveLoop_invalid_step env (k + 2) 0 ses i1 _ hT h1 (by decide),
      show k + 2 = (k + 1) + 1 from rfl,
      interactiveLoop_invalid_step env (k + 1) 1 ses i2 _ hT h2 (by decide),
      IOut.withOutput_withOutput]
    norm_num
  refine ⟨?_, ?_, ?_⟩
  · intro i3 h3
    rw [Interactive_resolved env _ ses _ hA hP, two,
      show k + 1 = k + 1 from rfl,
      interactiveLoop_invalid_fail env k 2 ses i3 rest hT h3 (by decide)]
    rfl
  · intro v hv
    rw [Interactive_resolved env _ ses _ hA hP, two, IOut.withOutput_checkCalls]
    exact interactiveLoop_valid_checks env k 2 ses v rest hT hv
  · rw [Interactive_resolved env _ ses _ hA hP, two, IOut.withOutput_telnetCalls,
      interactiveLoop_telnet_step env k 2 ses rest hT]
    simp

/-- A test session with address and password resolved and the protocol
type still unspecified. -/
def sesNoType : Session where
  Address := "a:1"
  Password := "p"
  Typ := ""
  Log := ""

/-- C3 witness: two invalid entries and a third entry, evaluated over the
all-succeeding environment. -/
theorem Interactive_three_invalid_protocols_witness :
    (Interactive envAllOk 3 sesNoType ["tcp", "udp", "http"]).result =
      some (some .ErrToManyFails) ∧
    (Interactive envAllOk 3 sesNoType ["tcp", "udp", ProtocolRCON]).checkCalls ≠ [] ∧
    (Interactive envAllOk 3 sesNoType ["tcp", "udp", ProtocolTELNET]).telnetCalls ≠ [] := by
  have h := Interactive_three_invalid_protocols envAllOk sesNoType "tcp" "udp" [] 0
    (by decide) (by decide) rfl (by decide) (by decide)
  exact ⟨h.1 "http" (by decide), h.2.1 ProtocolRCON (by simp), h.2.2⟩

/-- C6: when `NewSession` consults the config (some flag of address or
password missing, config loads), the resolution is flag-first per field:
a non-empty flag value wins, an empty one falls back to the selected
environment's value; no error is returned. -/
theorem NewSession_field_precedence (nc : ConfigLoader) (c : FlagValues)
    (cfg : Config) (hno : ¬(c.a ≠ "" ∧ c.p ≠ ""))
    (hload : nc c.cfg = .ok cfg) :
    (NewSession nc c).2 = none ∧
    (NewSession nc c).1.Address =
      (if c.a = "" then (cfg (if c.e = "" then DefaultConfigEnv else c.e)).Address
       else c.a) ∧
    (NewSession nc c).1.Password =
      (if c.p = "" then (cfg (if c.e = "" then DefaultConfigEnv else c.e)).Password
       else c.p) ∧
    (NewSession nc c).1.Log =
      (if c.l = "" then (cfg (if c.e = "" then DefaultConfigEnv else c.e)).Log
       else c.l) ∧
    (NewSession nc c).1.Typ =
      (if c.t = "" then (cfg (if c.e = "" then DefaultConfigEnv else c.e)).Typ
       else c.t) := by
  simp only [NewSession, hload]
  rw [if_neg hno]
  by_cases ha : c.a = "" <;> by_cases hp : c.p = "" <;>
    by_cases hl : c.l = "" <;> by_cases ht : c.t = "" <;>
    simp [ha, hp, hl, ht]

/-- A config loader with one populated environment block, for the
precedence witness. -/
def filledLoader : ConfigLoader := fun _ => .ok fun e =>
  if e = DefaultConfigEnv then
    { Address := "c:9", Password := "cpw", Typ := "ctype", Log := "clog" }
  else
    { Address := "", Password := "", Typ := "", Log := "" }

/-- Flag values with only the address flag given, so the config is
consulted and the other three fields fall back to it. -/
def flagsAOnly : FlagValues where
  a := "a:1"
  p := ""
  t := ""
  l := ""
  e := ""
  cfg := ""

/-- C6 witness: the precedence theorem evaluated on a loader with one
populated environment: the flagged address wins, the rest come from the
config block. -/
theorem NewSession_field_precedence_witness :
    (NewSession filledLoader flagsAOnly).2 = none ∧
    (NewSession filledLoader flagsAOnly).1.Address = "a:1" ∧
    (NewSession filledLoader flagsAOnly).1.Password = "cpw" ∧
    (NewSession filledLoader flagsAOnly).1.Log = "clog" ∧
    (NewSession filledLoader flagsAOnly).1.Typ = "ctype" := by
  have h := NewSession_field_precedence filledLoader flagsAOnly
    (fun e =>
      if e = DefaultConfigEnv then
        { Address := "c:9", Password := "cpw", Typ := "ctype", Log := "clog" }
      else
        { Address := "", Password := "", Typ := "", Log := "" })
    (by decide) rfl
  refine ⟨h.1, ?_, ?_, ?_, ?_⟩
  · rw [h.2.1]; decide
  · rw [h.2.2.1]; decide
  · rw [h.2.2.2.1]; decide
  · rw [h.2.2.2.2]; decide

/-- The `Interactive` wrapper never passes the quit sentinel to
`Execute`. -/
lemma Interactive_quit_not_dispatched (env : ClientEnv) (fuel : Nat)
    (ses : Session) (input : List String) :
    CommandQuit ∉ (Interactive env fuel ses input).execCmds := by
  simp only [Interactive, IOut.withOutput_execCmds]
  exact interactiveLoop_quit_not_dispatched env fuel 0 _ _

/-- C9: reading the line `:q` ends the command loop at once with outcome
`quit` and nothing dispatched; inside a credential-checked rcon iteration
this makes the whole loop return `nil`; and `Execute` is never invoked
with `:q` as the command text anywhere in `Interactive`. -/
theorem Interactive_quit_sentinel (env : ClientEnv) (ses : Session)
    (rest input : List String) (fuel attempt : Nat) :
    cmdLoop env ses (CommandQuit :: rest) =
      { output := [], execCmds := [], res := .quit } ∧
    CommandQuit ∉ (Interactive env fuel ses input).execCmds ∧
    (ses.Typ = ProtocolRCON → CheckCredentials env ses = none →
      interactiveLoop env (fuel + 1) attempt ses (CommandQuit :: rest) =
        { output := [banner ses], execCmds := [],
          checkCalls := [(ses.Address, ses.Password)], telnetCalls := [],
          result := some none }) := by
  refine ⟨cmdLoop_quit env ses rest, Interactive_quit_not_dispatched env fuel ses input, ?_⟩
  intro h1 h2
  have hs : Session.mk ses.Address ses.Password "rcon" ses.Log = ses := by
    obtain ⟨a, p, t, l⟩ := ses
    simp_all [ProtocolRCON]
  simp [interactiveLoop, h1, h2, hs, ProtocolRCON, ProtocolTELNET,
    ProtocolWebRCON, cmdLoop_quit, banner]

/-- C9 witness: the quit-sentinel theorem evaluated on the resolved rcon
session. -/
theorem Interactive_quit_sentinel_witness :
    cmdLoop envAllOk sesR (CommandQuit :: []) =
      { output := [], execCmds := [], res := .quit } ∧
    interactiveLoop envAllOk (0 + 1) 0 sesR (CommandQuit :: []) =
      { output := [banner sesR], execCmds := [],
        checkCalls := [(sesR.Address, sesR.Password)], telnetCalls := [],
        result := some none } := by
  have h := Interactive_quit_sentinel envAllOk sesR [] [] 0 0
  exact ⟨h.1, h.2.2 rfl rfl⟩

end RconCli
